import Mathlib

/-!
Verification development for the pymechanical repository.

The repository consists of a CLI launcher (`src/ansys/mechanical/core/run.py`),
an embedding configuration module (`embedding/config.py`), a logging bridge
(`embedding/logger/__init__.py`), a server-start script
(`tests/scripts/rpc_server_embedded.py`), and an RPC core (marshaller plus
dispatcher) that is described by the specification but whose source is not in
the checked tree; the RPC core is therefore modelled from the specification,
and everything else is translated from the Python source.

Python dictionaries (`os.environ` and subprocess environments) are modelled as
association lists; Python exceptions as `Except`; the Python `None`-able
arguments as `Option`.
-/

namespace PyMech

/-- Environment mappings (`os.environ` and the `env` dictionaries handed to
subprocesses) as association lists from variable names to values, looked up
front-to-back. -/
abbrev EnvMap := List (String × String)

/-- Dictionary lookup, `env.get(k)`: `none` when the key is absent. -/
def envGet (e : EnvMap) (k : String) : Option String :=
  match e with
  | [] => none
  | (k2, v) :: rest => if k2 = k then some v else envGet rest k

/-- Dictionary update, `env[k] = v`: overwrites in place, appends if absent. -/
def envSet (e : EnvMap) (k v : String) : EnvMap :=
  match e with
  | [] => [(k, v)]
  | (k2, v2) :: rest => if k2 = k then (k2, v) :: rest else (k2, v2) :: envSet rest k v

theorem envGet_envSet_self (e : EnvMap) (k v : String) :
    envGet (envSet e k v) k = some v := by
  induction e with
  | nil => simp [envSet, envGet]
  | cons p rest ih =>
    obtain ⟨k2, v2⟩ := p
    by_cases h : k2 = k <;> simp [envSet, envGet, h, ih]

theorem envGet_envSet_ne (e : EnvMap) (k v k2 : String) (h : k2 ≠ k) :
    envGet (envSet e k v) k2 = envGet e k2 := by
  have h2 : ¬(k = k2) := fun hh => h hh.symm
  induction e with
  | nil => simp [envSet, envGet, h2]
  | cons p rest ih =>
    obtain ⟨k3, v3⟩ := p
    by_cases h3 : k3 = k
    · subst h3
      simp [envSet, envGet, h2]
    · simp [envSet, envGet, h3, ih]

theorem envGet_envSet_isSome (e : EnvMap) (k v k2 : String)
    (h : (envGet e k2).isSome = true) :
    (envGet (envSet e k v) k2).isSome = true := by
  by_cases hk : k2 = k
  · subst hk; simp [envGet_envSet_self]
  · rwa [envGet_envSet_ne e k v k2 hk]

/-- Apply a sequence of `env[k] = v` assignments left to right. -/
def envSetMany (e : EnvMap) (ps : List (String × String)) : EnvMap :=
  match ps with
  | [] => e
  | (k, v) :: rest => envSetMany (envSet e k v) rest

theorem envGet_envSetMany_notMem (e : EnvMap) (ps : List (String × String))
    (k : String) (h : ∀ p ∈ ps, p.1 ≠ k) :
    envGet (envSetMany e ps) k = envGet e k := by
  induction ps generalizing e with
  | nil => rfl
  | cons p rest ih =>
    obtain ⟨k2, v2⟩ := p
    have hk2 : k2 ≠ k := h (k2, v2) (List.mem_cons_self _ _)
    rw [envSetMany, ih (envSet e k2 v2) (fun q hq => h q (List.mem_cons_of_mem _ hq)),
      envGet_envSet_ne _ _ _ _ (fun hh => hk2 hh.symm)]

theorem envGet_envSetMany_isSome (e : EnvMap) (ps : List (String × String))
    (k : String) (h : (envGet e k).isSome = true) :
    (envGet (envSetMany e ps) k).isSome = true := by
  induction ps generalizing e with
  | nil => exact h
  | cons p rest ih =>
    obtain ⟨k2, v2⟩ := p
    exact ih (envSet e k2 v2) (envGet_envSet_isSome e k2 v2 k h)

end PyMech

namespace PyMech.EmbeddingConfig

/-- `Configuration` from `embedding/config.py`: the two stored fields behind
the `no_act_addins` and `addin_configuration` properties. The constructor
defaults are `no_act_addins = False` and `addin_configuration = "Mechanical"`. -/
structure Configuration where
  no_act_addins : Bool
  addin_configuration : String
deriving DecidableEq

/-- `Configuration.__init__(addin_configuration="Mechanical")`. -/
def mkConfiguration (addin_configuration : String := "Mechanical") : Configuration :=
  ⟨false, addin_configuration⟩

/-- The environment variable written by `configure`. -/
def NO_ACT_EXTENSIONS_VAR : String := "ANSYS_MECHANICAL_STANDALONE_NO_ACT_EXTENSIONS"

/-- `configure(configuration)` from `embedding/config.py`: sets
`os.environ["ANSYS_MECHANICAL_STANDALONE_NO_ACT_EXTENSIONS"] = "1"` when
`configuration.no_act_addins` holds. The result pairs `os.environ` after the
call with the configuration object after the call (the function touches
neither otherwise). -/
def configure (c : Configuration) (environ : EnvMap) : EnvMap × Configuration :=
  (if c.no_act_addins then envSet environ NO_ACT_EXTENSIONS_VAR "1" else environ, c)

end PyMech.EmbeddingConfig

namespace PyMech.RpcScript

/-- The server object constructed by `tests/scripts/rpc_server_embedded.py`.
Modelled from the spec: `MechanicalDefaultServer` itself ships with the RPC
core, which is not in the checked tree; only its four constructor parameters
matter here, so a server value is the record of the keyword arguments the
script passes. -/
structure MechanicalDefaultServer where
  port : Int
  version : Int
  enable_logging : Bool
  log_level : String
deriving DecidableEq

/-- Result of running the `__main__` block of `rpc_server_embedded.py`:
either the server was constructed from the parsed arguments and `start()`
was called on it, or the script died with an uncaught exception
(`IndexError`, `ValueError` from `int(...)`, or a failing `eval`). -/
inductive ScriptOutcome where
  | started (server : MechanicalDefaultServer)
  | uncaught
deriving DecidableEq

/-- Decimal-digit accumulator behind `parsePyInt`: consumes digits into the
accumulator and rejects the input at the first non-digit; `none` as the
starting accumulator rejects an empty digit run. -/
def parseDigits : List Char → Option Nat → Option Nat
  | [], acc => acc
  | c :: rest, acc =>
    if c.isDigit then parseDigits rest (some ((acc.getD 0) * 10 + (c.toNat - 48)))
    else none

/-- Python `int(s)` on a command-line string: an optional sign followed by at
least one decimal digit (the surrounding-whitespace tolerance of `int` is
omitted; the launcher passes bare literals). -/
def parsePyInt (s : String) : Option Int :=
  match s.toList with
  | '-' :: rest => (parseDigits rest none).map (fun n => -(n : Int))
  | '+' :: rest => (parseDigits rest none).map (fun n => (n : Int))
  | cs => (parseDigits cs none).map (fun n => (n : Int))

/-- Modelled from the spec: `eval(sys.argv[3])` for the `enable_logging`
argument. The script's contract passes a boolean literal, so the model
evaluates exactly the literals `True` and `False` and treats anything else as
a failure of the script. -/
def evalBoolLiteral (s : String) : Option Bool :=
  if s = "True" then some true
  else if s = "False" then some false
  else none

/-- The `__main__` block of `tests/scripts/rpc_server_embedded.py`:
`_port = int(sys.argv[1])`, `_version = int(sys.argv[2])`,
`_enable_logging = eval(sys.argv[3])`, `_log_level = str(sys.argv[4])`,
then `MechanicalDefaultServer(port=_port, version=_version,
enable_logging=_enable_logging, log_level=_log_level)` and `server.start()`. -/
def rpcServerEmbeddedMain (argv : List String) : ScriptOutcome :=
  match argv with
  | _prog :: a1 :: a2 :: a3 :: a4 :: _rest =>
    match parsePyInt a1, parsePyInt a2, evalBoolLiteral a3 with
    | some p, some v, some e =>
      .started { port := p, version := v, enable_logging := e, log_level := a4 }
    | _, _, _ => .uncaught
  | _ => .uncaught

end PyMech.RpcScript

namespace PyMech.EmbeddingLogger

/-- The two logging backends of `embedding/logger/__init__.py`:
`api.APIBackend` (post-initialization) and `environ.EnvironBackend`
(pre-initialization, environment-variable based). -/
inductive BackendKind where
  | api
  | environVars
deriving DecidableEq

/-- `_get_backend()`: `embedding_initialized = initializer.INITIALIZED_VERSION
!= None; return api.APIBackend() if embedding_initialized else
environ.EnvironBackend()`. The process-wide `initializer.INITIALIZED_VERSION`
is the explicit argument. -/
def get_backend (INITIALIZED_VERSION : Option Nat) : BackendKind :=
  if INITIALIZED_VERSION ≠ none then .api else .environVars

/-- `LOGGING_CONTEXT` from the logger module. -/
def LOGGING_CONTEXT : String := "PYMECHANICAL"

/-- Sink identifiers. The `sinks` module itself is not in the checked tree;
modelled from the spec as two distinct constants, matching the two members
`StandardSinks.CONSOLE` and `StandardSinks.STANDARD_LOG_FILE` the logger
module references. -/
def CONSOLE : Nat := 0

/-- Second sink identifier; see `CONSOLE`. -/
def STANDARD_LOG_FILE : Nat := 1

/-- One call made into a backend object: which backend was obtained from
`_get_backend()` and which of its methods was invoked. -/
structure BackendCall where
  backend : BackendKind
  method : String
deriving DecidableEq

/-- The entry points of the logging bridge (class methods of `Configuration`
and `Logger`) that reach a backend through `_get_backend()`. The commit
helpers carry the sink set they iterate over. -/
inductive LogBridgeOp where
  | flushLog
  | canLogMessage (level : Nat)
  | logMessage (level : Nat) (msg : String)
  | setDirectory (value : String)
  | setBaseDirectory (value : String)
  | commitLevel (sinks : List Nat) (level : Nat)
  | commitEnabled (sinks : List Nat)

/-- The backend calls each bridge entry point performs, translated from
`embedding/logger/__init__.py`: every `Logger` method and both commit
helpers fetch the backend through `_get_backend()` at each call site
(`set_log_directory`/`set_log_base_directory` reach here only for a
non-`None` value; the `None` early-return is in `logConfigure`). -/
def bridgeCalls (INITIALIZED_VERSION : Option Nat) : LogBridgeOp → List BackendCall
  | .flushLog => [⟨get_backend INITIALIZED_VERSION, "flush"⟩]
  | .canLogMessage _ => [⟨get_backend INITIALIZED_VERSION, "can_log_message"⟩]
  | .logMessage _ _ => [⟨get_backend INITIALIZED_VERSION, "log_message"⟩]
  | .setDirectory _ => [⟨get_backend INITIALIZED_VERSION, "set_directory"⟩]
  | .setBaseDirectory _ => [⟨get_backend INITIALIZED_VERSION, "set_base_directory"⟩]
  | .commitLevel sinks _ =>
      sinks.map (fun _ => ⟨get_backend INITIALIZED_VERSION, "set_log_level"⟩)
  | .commitEnabled sinks =>
      sinks.map (fun _ => ⟨get_backend INITIALIZED_VERSION, "enable"⟩)

/-- Python `set.add` on the `LOGGING_SINKS` set (kept as a duplicate-free
list). -/
def setAdd (s : List Nat) (x : Nat) : List Nat :=
  if x ∈ s then s else s ++ [x]

/-- Python `set.discard` on the `LOGGING_SINKS` set. -/
def setDiscard (s : List Nat) (x : Nat) : List Nat :=
  s.filter (fun y => y != x)

/-- `Configuration._store_stdout_sink_enabled`: add or discard `CONSOLE`. -/
def store_stdout_sink_enabled (sinks : List Nat) (value : Bool) : List Nat :=
  if value then setAdd sinks CONSOLE else setDiscard sinks CONSOLE

/-- `Configuration._store_file_sink_enabled`: add or discard
`STANDARD_LOG_FILE`. -/
def store_file_sink_enabled (sinks : List Nat) (value : Bool) : List Nat :=
  if value then setAdd sinks STANDARD_LOG_FILE else setDiscard sinks STANDARD_LOG_FILE

/-- `Configuration.set_log_level(level)`: raises
`Exception("No logging backend configured!")` when `LOGGING_SINKS` is empty,
otherwise commits the level to every sink. Returns the backend calls made. -/
def set_log_level (sinks : List Nat) (INITIALIZED_VERSION : Option Nat) (level : Nat) :
    Except String (List BackendCall) :=
  if sinks.length = 0 then .error "No logging backend configured!"
  else .ok (bridgeCalls INITIALIZED_VERSION (.commitLevel sinks level))

/-- `Configuration.configure(level, directory, base_directory, to_stdout)`:
`set_log_directory` and `set_log_base_directory` (each a no-op on `None`),
then store the stdout sink flag, compute
`file_sink_enabled = directory != None or base_directory != None`, store the
file sink flag, commit the enabled configuration, and finally
`set_log_level(level)` (which may raise). Returns the resulting
`LOGGING_SINKS` set and the backend calls made, or the raised message. -/
def logConfigure (sinks : List Nat) (INITIALIZED_VERSION : Option Nat) (level : Nat)
    (directory base_directory : Option String) (to_stdout : Bool) :
    Except String (List Nat × List BackendCall) :=
  let calls1 := match directory with
    | none => []
    | some d => bridgeCalls INITIALIZED_VERSION (.setDirectory d)
  let calls2 := match base_directory with
    | none => []
    | some d => bridgeCalls INITIALIZED_VERSION (.setBaseDirectory d)
  let sinks1 := store_stdout_sink_enabled sinks to_stdout
  let file_sink_enabled := directory.isSome || base_directory.isSome
  let sinks2 := store_file_sink_enabled sinks1 file_sink_enabled
  let calls3 := bridgeCalls INITIALIZED_VERSION (.commitEnabled sinks2)
  match set_log_level sinks2 INITIALIZED_VERSION level with
  | .error e => .error e
  | .ok calls4 => .ok (sinks2, calls1 ++ calls2 ++ calls3 ++ calls4)

end PyMech.EmbeddingLogger

namespace PyMech.Run

/-- Observable behaviour of one launched subprocess, the collaborator behind
`asyncio.create_subprocess_exec`: the byte lines produced on stdout and
stderr before EOF (bytes as `Nat`), and the exit code `process.wait()`
returns (`Int`, since signals surface as negative codes). -/
structure ChildProcess where
  stdoutLines : List (List Nat)
  stderrLines : List (List Nat)
  exitCode : Int
deriving DecidableEq

/-- The read loop of `_read_and_display` restricted to one stream:
`readline()` is awaited repeatedly; a non-empty line is appended to that
stream's buffer and the next read is scheduled; an empty line (EOF) stops
reading the stream. The `asyncio.wait` interleaving between the two streams
never mixes their buffers, so each stream drains independently. -/
def drainStream : List (List Nat) → List (List Nat)
  | [] => []
  | l :: rest => if l = [] then [] else l :: drainStream rest

/-- `_read_and_display(cmd, env)` from `run.py`: starts the subprocess via
the explicit launch primitive, drains both pipes line by line (also echoing
each line to the terminal, a side effect with no bearing on the result),
waits for the process, and returns `(rc, b"".join(stdout),
b"".join(stderr))`. -/
def read_and_display (launch : List String → Option EnvMap → ChildProcess)
    (cmd : List String) (env : Option EnvMap) : Int × List Nat × List Nat :=
  let process := launch cmd env
  (process.exitCode,
   (drainStream process.stdoutLines).flatten,
   (drainStream process.stderrLines).flatten)

/-- `_run(args, env)` from `run.py`: runs `_read_and_display` to completion
on the event loop and calls `sys.exit("child failed with '{}' exit
code".format(rc))` when `rc` is truthy, that is non-zero. The raised
`SystemExit` is the `Except.error` carrying its message. -/
def runProc (launch : List String → Option EnvMap → ChildProcess)
    (args : List String) (env : Option EnvMap) : Except String Unit :=
  let rc := (read_and_display launch args env).1
  if rc ≠ 0 then .error ("child failed with '" ++ toString rc ++ "' exit code")
  else .ok ()

/-- The click options of the `cli` command (`ansys-mechanical`), in the
order of the `cli` function signature. `exitFlag` is the `--exit` flag
(`None` when not given). -/
structure CliOpts where
  project_file : Option String
  port : Option Int
  debug : Bool
  input_script : Option String
  revision : Option Int
  graphical : Bool
  show_welcome_screen : Bool
  private_appdata : Bool
  exitFlag : Option Bool
deriving DecidableEq

/-- Python truthiness of an optional string: `None` and `""` are falsy. -/
def strTruthy : Option String → Bool
  | none => false
  | some s => s != ""

/-- Python truthiness of an optional integer: `None` and `0` are falsy. -/
def intTruthy : Option Int → Bool
  | none => false
  | some i => i != 0

/-- Python truthiness of an optional bool: `None` is falsy. -/
def boolTruthy : Option Bool → Bool
  | none => false
  | some b => b

/-- Result of the `cli` command body: an exception raised by the validation
block (with `os.environ` at that point), or the `_run(args, env)` invocation
it reaches (with `os.environ` after the possible `WBDEBUG_STOP` write). -/
inductive CliOutcome where
  | failed (msg : String) (environAfter : EnvMap)
  | ran (args : List String) (env : Option EnvMap) (environAfter : EnvMap)
deriving DecidableEq

/-- Whether the `cli` body raised before launching anything. -/
def isFailed : CliOutcome → Bool
  | .failed _ _ => true
  | .ran _ _ _ => false

/-- `os.environ` as the `cli` body left it. -/
def outcomeEnviron : CliOutcome → EnvMap
  | .failed _ e => e
  | .ran _ _ e => e

/-- The `cli` command body from `run.py`. External collaborators are
explicit arguments: `find_mechanical` is `ansys.tools.path.find_mechanical`
returning the executable and the version already scaled by
`int(version * 10)` (called with the revision only when the revision is
truthy, matching `if not revision:`); `profileUpdate` is
`UniqueUserProfile(f"Mechanical-{os.getpid()}").update_environment` acting
on the copy of the environment. The option checks translate Python
truthiness (`if project_file:` etc.); prints and warnings are dropped. -/
def cli (find_mechanical : Option Int → String × Nat)
    (profileUpdate : EnvMap → EnvMap) (o : CliOpts) (environ : EnvMap) : CliOutcome :=
  if strTruthy o.project_file && strTruthy o.input_script then
    .failed "Cannot open a project file *and* run a script." environ
  else if !o.graphical && strTruthy o.project_file then
    .failed "Cannot open a project file in batch mode." environ
  else if intTruthy o.port && strTruthy o.project_file then
    .failed "Cannot open in server mode with a project file." environ
  else if intTruthy o.port && strTruthy o.input_script then
    .failed "Cannot open in server mode with an input script." environ
  else
    let fm := find_mechanical (if intTruthy o.revision then o.revision else none)
    let exe := fm.1
    let version := fm.2
    let args1 := [exe, "-DSApplet"]
      ++ (if !o.graphical || !o.show_welcome_screen then ["-AppModeMech"] else [])
      ++ (if version < 232 then ["-nosplash", "-notabctrl"] else [])
      ++ (if o.graphical then [] else ["-b"])
    let environ1 := if o.debug then envSet environ "WBDEBUG_STOP" "1" else environ
    let exitV := if !o.graphical && strTruthy o.input_script then true
      else boolTruthy o.exitFlag
    let args2 := args1
      ++ (if intTruthy o.port then ["-grpc", toString (o.port.getD 0)] else [])
      ++ (if strTruthy o.project_file then ["-file", o.project_file.getD ""] else [])
      ++ (if strTruthy o.input_script then ["-script", o.input_script.getD ""] else [])
      ++ (if exitV && strTruthy o.input_script && decide (241 ≤ version) then ["-x"]
          else [])
    let env : Option EnvMap :=
      if o.private_appdata then some (profileUpdate environ1) else none
    .ran args2 env environ1

/-- Python `os.path.dirname` for POSIX paths: the text up to and including
the final slash, with trailing slashes stripped unless the head is entirely
slashes. -/
def dirname (p : String) : String :=
  let cs := p.toList
  let head := (cs.reverse.dropWhile (fun c => c != '/')).reverse
  let head2 :=
    if head ≠ [] ∧ head.any (fun c => c != '/') then
      (head.reverse.dropWhile (fun c => c == '/')).reverse
    else head
  String.mk head2

/-- The environment variables `cli_env` assigns, as (name, value) pairs in
source order. Values the source reads back from `env` immediately after
setting them (`DS_INSTALL_DIR`, `AWP_ROOT{version}`, `AWP_LOCALE{version}`,
`MWCONFIG_NAME`, `MWHOME`) are carried as the let-bound values just stored,
which is exactly what those reads return. `home` and `path` are the parent
values of `HOME` and `PATH`; `oldLd` is the parent `LD_LIBRARY_PATH` as the
f-string interpolates it (the string "None" when absent). -/
def cliEnvPairs (exe : String) (version : Nat) (home path oldLd : String) :
    List (String × String) :=
  let v := toString version
  let DS_INSTALL_DIR := dirname exe
  let AWP_ROOT := DS_INSTALL_DIR ++ "/.."
  let MWCONFIG_NAME := "amd64_linux"
  let MWHOME := AWP_ROOT ++ "/commonfiles/MainWin/linx64/mw"
  [("DS_INSTALL_DIR", DS_INSTALL_DIR),
   ("AWP_ROOT" ++ v, AWP_ROOT),
   ("AWP_LOCALE" ++ v, "en-us"),
   ("CADOE_LIBDIR" ++ v, AWP_ROOT ++ "/commonfiles/language/" ++ "en-us"),
   ("ANSYSLIC_DIR", AWP_ROOT ++ "/../shared_files/licensing"),
   ("ANSYSCOMMON_DIR", AWP_ROOT ++ "/commonfiles"),
   ("ANSYSCL" ++ v ++ "_DIR", AWP_ROOT ++ "/licensingclient"),
   ("ANSISMAINWINLITEMODE", "1"),
   ("MWCONFIG_NAME", MWCONFIG_NAME),
   ("MWDEBUG_LEVEL", "0"),
   ("MWHOME", MWHOME),
   ("MWOS", "linux"),
   ("MWREGISTRY", DS_INSTALL_DIR ++ "/WBMWRegistry/hklm_" ++ MWCONFIG_NAME ++ ".bin"),
   ("MWRT_MODE", "classic"),
   ("MWRUNTIME", "1"),
   ("MWUSER_DIRECTORY", home ++ "/.mw"),
   ("MWDONT_XCLOSEDISPLAY", "1"),
   ("LD_PRELOAD", "libstdc++.so.6.0.28"),
   ("LD_LIBRARY_PATH",
      AWP_ROOT ++ "/tp/stdc++:"
      ++ AWP_ROOT ++ "/tp/openssl/1.1.1/linx64/lib:"
      ++ MWHOME ++ "/lib-amd64_linux:"
      ++ MWHOME ++ "/lib-amd64_linux_optimized:"
      ++ oldLd ++ ":"
      ++ AWP_ROOT ++ "/Tools/mono/Linux64/lib:"
      ++ DS_INSTALL_DIR ++ "/lib/linx64:"
      ++ DS_INSTALL_DIR ++ "/dll/linx64:"
      ++ DS_INSTALL_DIR ++ "/libshared/linx64:"
      ++ AWP_ROOT ++ "/tp/IntelCompiler/2019.3.199/linx64/lib/intel64:"
      ++ AWP_ROOT ++ "/tp/qt_fw/5.9.6/Linux64/lib:"
      ++ AWP_ROOT ++ "/commonfiles/CAD/Acis/linx64:"
      ++ AWP_ROOT ++ "/commonfiles/fluids/lib/linx64:"
      ++ AWP_ROOT ++ "/Framework/bin/Linux64"),
   ("PATH",
      MWHOME ++ "/bin-amd64_linux_optimized:"
      ++ DS_INSTALL_DIR ++ "/CommonFiles/linx64:"
      ++ DS_INSTALL_DIR ++ "/CADIntegration/linx64:"
      ++ AWP_ROOT ++ "/Tools/mono/Linux64/bin:"
      ++ path)]

/-- Result of the `cli_env` command (`mechanical-env`): the Windows early
return, the `TypeError` Python raises when `HOME` or `PATH` is missing from
the parent environment (string concatenation with `None` at the
`MWUSER_DIRECTORY` or `PATH` assignment), or the `_run(args, env)` call with
`os.environ` after the command (never written, hence the parent map) and the
child environment. -/
inductive CliEnvResult where
  | windowsNoop
  | typeErr
  | launch (parentAfter : EnvMap) (child : EnvMap) (runArgs : List String)
deriving DecidableEq

/-- The parent-side `os.environ` after `cli_env`, when it launched. -/
def launchParentAfter : CliEnvResult → Option EnvMap
  | .launch p _ _ => some p
  | _ => none

/-- The environment handed to `_run`, when `cli_env` launched. -/
def launchChild : CliEnvResult → Option EnvMap
  | .launch _ c _ => some c
  | _ => none

/-- The `cli_env` command body from `run.py`: return early on Windows,
otherwise copy `os.environ`, perform the assignment sequence of
`cliEnvPairs`, and call `_run(args, env)`. `exe` and `version` come from the
external `ansys.tools.path.find_mechanical` collaborator and are explicit
arguments, `version` already scaled by `int(version * 10)`. -/
def cli_env (osName : String) (exe : String) (version : Nat)
    (runArgs : List String) (environ : EnvMap) : CliEnvResult :=
  if osName = "nt" then .windowsNoop
  else
    match envGet environ "HOME", envGet environ "PATH" with
    | some home, some path =>
      let oldLd := (envGet environ "LD_LIBRARY_PATH").getD "None"
      .launch environ (envSetMany environ (cliEnvPairs exe version home path oldLd))
        runArgs
    | _, _ => .typeErr

/-- Whether `s` begins with `pre`, spelled over character lists. -/
def strHasPre (pre s : String) : Bool :=
  pre.toList.isPrefixOf s.toList

theorem strHasPre_append (p x : String) : strHasPre p (p ++ x) = true := by
  unfold strHasPre
  have h : (p ++ x).toList = p.toList ++ x.toList := by
    simp [String.toList, String.data_append]
  rw [h, List.isPrefixOf_iff_prefix]
  exact List.prefix_append _ _

/-- The controlled-variable set exactly as claim C7 words it: the six named
variables, the four families given by their stems, and the MainWin variables
beginning with "MW". -/
def claimControlled (k : String) : Bool :=
  k == "DS_INSTALL_DIR" || k == "ANSYSLIC_DIR" || k == "ANSYSCOMMON_DIR"
  || k == "LD_PRELOAD" || k == "LD_LIBRARY_PATH" || k == "PATH"
  || strHasPre "AWP_ROOT" k || strHasPre "AWP_LOCALE" k
  || strHasPre "CADOE_LIBDIR" k || strHasPre "ANSYSCL" k
  || strHasPre "MW" k

/-- The amended controlled set: `cli_env` also assigns
`ANSISMAINWINLITEMODE` (it sits in the source's MainWin block but does not
begin with "MW"), so it belongs to the controlled set as well. -/
def amendedControlled (k : String) : Bool :=
  claimControlled k || k == "ANSISMAINWINLITEMODE"

end PyMech.Run

namespace PyMech.EmbeddingConfig

/-- C10: `configure(configuration)` sets the environment variable
`ANSYS_MECHANICAL_STANDALONE_NO_ACT_EXTENSIONS` to "1" exactly when
`configuration.no_act_addins` is true, leaves every other environment
variable at its prior value, leaves the whole environment untouched when the
flag is false, and changes no field of the configuration object. -/
theorem configure_no_act_frame (c : Configuration) (environ : EnvMap) :
    (configure c environ).2 = c
    ∧ (c.no_act_addins = true →
        (configure c environ).1 = envSet environ NO_ACT_EXTENSIONS_VAR "1"
        ∧ envGet (configure c environ).1 NO_ACT_EXTENSIONS_VAR = some "1")
    ∧ (c.no_act_addins = false → (configure c environ).1 = environ)
    ∧ ∀ k, k ≠ NO_ACT_EXTENSIONS_VAR →
        envGet (configure c environ).1 k = envGet environ k := by
  refine ⟨rfl, fun h => ?_, fun h => ?_, fun k hk => ?_⟩
  · simp [configure, h, envGet_envSet_self]
  · simp [configure, h]
  · cases h : c.no_act_addins
    · simp [configure, h]
    · simp [configure, h, envGet_envSet_ne _ _ _ _ hk]

/-- Witness for C10 at a concrete configuration and environment. -/
theorem configure_no_act_frame_witness :
    envGet (configure ⟨true, "Mechanical"⟩ [("A", "b")]).1 NO_ACT_EXTENSIONS_VAR
      = some "1" :=
  ((configure_no_act_frame ⟨true, "Mechanical"⟩ [("A", "b")]).2.1 rfl).2

end PyMech.EmbeddingConfig

namespace PyMech.RpcScript

/-- C4: the server-start script consumes exactly its first four positional
command-line arguments as `port`, `version`, `enable_logging`, `log_level`
in that order, converts the first two with `int(...)` and the last with
`str(...)`, constructs the server with exactly those four named parameters
and calls `start()` on it; the resulting configuration is a function of the
explicit argument values only (the program name and any further arguments do
not enter it). -/
theorem rpc_server_main_args (prog p v e l : String) (rest : List String)
    (portN versionN : Int) (enableB : Bool)
    (hp : parsePyInt p = some portN) (hv : parsePyInt v = some versionN)
    (he : evalBoolLiteral e = some enableB) :
    rpcServerEmbeddedMain (prog :: p :: v :: e :: l :: rest) =
      .started { port := portN, version := versionN, enable_logging := enableB,
                 log_level := l } := by
  simp [rpcServerEmbeddedMain, hp, hv, he]

/-- Witness for C4 at a concrete argument vector. -/
theorem rpc_server_main_args_witness :
    rpcServerEmbeddedMain ["rpc_server_embedded.py", "11000", "241", "True", "WARNING"] =
      .started { port := 11000, version := 241, enable_logging := true,
                 log_level := "WARNING" } :=
  rpc_server_main_args "rpc_server_embedded.py" "11000" "241" "True" "WARNING" []
    11000 241 true (by decide) (by decide) (by decide)

end PyMech.RpcScript

namespace PyMech.EmbeddingLogger

/-- C6: every backend call made by any entry point of the logging bridge
(`Configuration` or `Logger`) uses the post-init API backend exactly when
`initializer.INITIALIZED_VERSION` is not `None`, and the pre-init
environment-variable backend exactly when it is. -/
theorem bridge_backend_selection (INITIALIZED_VERSION : Option Nat)
    (op : LogBridgeOp) (c : BackendCall)
    (hc : c ∈ bridgeCalls INITIALIZED_VERSION op) :
    (c.backend = .api ↔ INITIALIZED_VERSION ≠ none)
    ∧ (c.backend = .environVars ↔ INITIALIZED_VERSION = none) := by
  have hb : c.backend = get_backend INITIALIZED_VERSION := by
    cases op with
    | flushLog => simp [bridgeCalls] at hc; rw [hc]
    | canLogMessage level => simp [bridgeCalls] at hc; rw [hc]
    | logMessage level msg => simp [bridgeCalls] at hc; rw [hc]
    | setDirectory value => simp [bridgeCalls] at hc; rw [hc]
    | setBaseDirectory value => simp [bridgeCalls] at hc; rw [hc]
    | commitLevel sinks level =>
      simp only [bridgeCalls, List.mem_map] at hc
      obtain ⟨a, _, ha⟩ := hc
      rw [← ha]
    | commitEnabled sinks =>
      simp only [bridgeCalls, List.mem_map] at hc
      obtain ⟨a, _, ha⟩ := hc
      rw [← ha]
  rw [hb]
  unfold get_backend
  by_cases h : INITIALIZED_VERSION = none <;> simp [h]

/-- Witness for C6: after initialization at version 241, a `Logger.flush`
call reaches the API backend. -/
theorem bridge_backend_selection_witness :
    (⟨BackendKind.api, "flush"⟩ : BackendCall).backend = .api :=
  (bridge_backend_selection (some 241) .flushLog ⟨.api, "flush"⟩
    (by simp [bridgeCalls, get_backend])).1.mpr (by simp)

/-- Turning the console sink off and the file sink off empties every
reachable sink set (the module only ever stores `CONSOLE` and
`STANDARD_LOG_FILE`). -/
theorem sinks_drained (sinks : List Nat)
    (h : ∀ s ∈ sinks, s = CONSOLE ∨ s = STANDARD_LOG_FILE) :
    store_file_sink_enabled (store_stdout_sink_enabled sinks false) false = [] := by
  simp only [store_file_sink_enabled, store_stdout_sink_enabled, setDiscard,
    Bool.false_eq_true, if_false]
  rw [List.filter_filter, List.filter_eq_nil_iff]
  intro a ha
  rcases h a ha with h1 | h1 <;> subst h1 <;> simp [CONSOLE, STANDARD_LOG_FILE]

/-- C9: `Configuration.set_log_level` raises "No logging backend
configured!" exactly when the configured sink set is empty; consequently
`Configuration.configure(to_stdout=False, directory=None,
base_directory=None)` raises, since it removes the console sink, enables no
file sink, and then sets the level. The hypothesis is the module invariant
that only the console and standard-file sinks are ever stored in
`LOGGING_SINKS`. -/
theorem set_log_level_no_backend (sinks : List Nat)
    (INITIALIZED_VERSION : Option Nat) (level : Nat)
    (hreach : ∀ s ∈ sinks, s = CONSOLE ∨ s = STANDARD_LOG_FILE) :
    (set_log_level sinks INITIALIZED_VERSION level =
        .error "No logging backend configured!" ↔ sinks = [])
    ∧ logConfigure sinks INITIALIZED_VERSION level none none false =
        .error "No logging backend configured!" := by
  constructor
  · unfold set_log_level
    by_cases hs : sinks.length = 0
    · simp [hs, List.length_eq_zero.mp hs]
    · have hne : sinks ≠ [] := fun h => hs (List.length_eq_zero.mpr h)
      simp [hs, hne]
  · have hd := sinks_drained sinks hreach
    simp [logConfigure, hd, set_log_level]

/-- Witness for C9 at the concrete reachable sink set holding only the
console sink. -/
theorem set_log_level_no_backend_witness :
    logConfigure [CONSOLE] none 30 none none false =
      .error "No logging backend configured!" :=
  (set_log_level_no_backend [CONSOLE] none 30 (by decide)).2

end PyMech.EmbeddingLogger

namespace PyMech.Run

/-- When EOF arrives only at the end of a stream (Python's `readline`
returns `b""` only at EOF), the read loop collects exactly the stream's
lines. -/
theorem drainStream_eq_self (ls : List (List Nat)) (h : ∀ l ∈ ls, l ≠ []) :
    drainStream ls = ls := by
  induction ls with
  | nil => rfl
  | cons l rest ih =>
    rw [drainStream, if_neg (h l (List.mem_cons_self _ _)),
      ih (fun x hx => h x (List.mem_cons_of_mem _ hx))]

/-- C5: `_read_and_display(cmd, env)` returns `(rc, out, err)` with `rc` the
exit code of the launched subprocess and `out`/`err` the concatenations of
the lines read from its stdout/stderr, and `_run(args, env)` terminates with
`SystemExit` carrying a message naming the exit code exactly when that code
is non-zero. -/
theorem run_captures_exit_code
    (launch : List String → Option EnvMap → ChildProcess)
    (args : List String) (env : Option EnvMap)
    (hout : ∀ l ∈ (launch args env).stdoutLines, l ≠ [])
    (herr : ∀ l ∈ (launch args env).stderrLines, l ≠ []) :
    read_and_display launch args env =
      ((launch args env).exitCode,
       (launch args env).stdoutLines.flatten,
       (launch args env).stderrLines.flatten)
    ∧ ((launch args env).exitCode ≠ 0 →
        runProc launch args env =
          .error ("child failed with '" ++ toString (launch args env).exitCode
            ++ "' exit code"))
    ∧ ((launch args env).exitCode = 0 → runProc launch args env = .ok ()) := by
  refine ⟨?_, fun h => ?_, fun h => ?_⟩
  · rw [read_and_display, drainStream_eq_self _ hout, drainStream_eq_self _ herr]
  · simp [runProc, read_and_display, h]
  · simp [runProc, read_and_display, h]

/-- Witness for C5 at a concrete child process behaviour with a non-zero
exit code. -/
theorem run_captures_exit_code_witness :
    runProc (fun _ _ => ⟨[[104, 105]], [], 3⟩) ["prog"] none =
      .error "child failed with '3' exit code" :=
  (run_captures_exit_code (fun _ _ => ⟨[[104, 105]], [], 3⟩) ["prog"] none
    (by decide) (by decide)).2.1 (by decide)

/-- C8: the `cli` command rejects inconsistent option combinations before
locating or launching anything: when a project file and an input script are
both given (truthy), or a project file is given without graphical mode, or a
port is given together with a project file or an input script, the body
raises and the outcome is a failure with `os.environ` unchanged (the
validation block precedes `find_mechanical`, the `WBDEBUG_STOP` write, and
`_run`). -/
theorem cli_rejects_inconsistent (find_mechanical : Option Int → String × Nat)
    (profileUpdate : EnvMap → EnvMap) (o : CliOpts) (environ : EnvMap)
    (h : (strTruthy o.project_file = true ∧ strTruthy o.input_script = true)
       ∨ (strTruthy o.project_file = true ∧ o.graphical = false)
       ∨ (intTruthy o.port = true
          ∧ (strTruthy o.project_file = true ∨ strTruthy o.input_script = true))) :
    isFailed (cli find_mechanical profileUpdate o environ) = true
    ∧ outcomeEnviron (cli find_mechanical profileUpdate o environ) = environ := by
  rcases h with ⟨h1, h2⟩ | ⟨h1, h2⟩ | ⟨h1, h2 | h2⟩
  · simp [cli, h1, h2, isFailed, outcomeEnviron]
  · cases his : strTruthy o.input_script <;>
      simp [cli, h1, h2, his, isFailed, outcomeEnviron]
  · cases his : strTruthy o.input_script <;> cases hg : o.graphical <;>
      simp [cli, h1, h2, his, hg, isFailed, outcomeEnviron]
  · cases hpf : strTruthy o.project_file <;> cases hg : o.graphical <;>
      simp [cli, h1, h2, hpf, hg, isFailed, outcomeEnviron]

/-- Witness for C8: a project file together with an input script is
rejected with the environment unchanged. -/
theorem cli_rejects_inconsistent_witness :
    isFailed (cli (fun _ => ("/exe", 232)) id
      ⟨some "a.mechdb", none, false, some "s.py", none, true, false, false, none⟩
      [("K", "v")]) = true
    ∧ outcomeEnviron (cli (fun _ => ("/exe", 232)) id
      ⟨some "a.mechdb", none, false, some "s.py", none, true, false, false, none⟩
      [("K", "v")]) = [("K", "v")] :=
  cli_rejects_inconsistent (fun _ => ("/exe", 232)) id
    ⟨some "a.mechdb", none, false, some "s.py", none, true, false, false, none⟩
    [("K", "v")] (Or.inl ⟨by decide, by decide⟩)

/-- Every key `cli_env` assigns lies in the amended controlled set. -/
theorem amendedControlled_keys (exe : String) (version : Nat)
    (home path oldLd : String) :
    ∀ p ∈ cliEnvPairs exe version home path oldLd, amendedControlled p.1 = true := by
  intro p hp
  simp only [cliEnvPairs, List.mem_cons, List.not_mem_nil, or_false] at hp
  rcases hp with h|h|h|h|h|h|h|h|h|h|h|h|h|h|h|h|h|h|h|h <;> subst h <;>
    simp only [amendedControlled, claimControlled, String.append_assoc,
      strHasPre_append, Bool.or_true, Bool.true_or] <;>
    decide

/-- A variable outside the amended controlled set is never a key of the
`cli_env` assignment sequence. -/
theorem cliEnvPairs_keys_ne (exe : String) (version : Nat)
    (home path oldLd k : String) (h : amendedControlled k = false) :
    ∀ p ∈ cliEnvPairs exe version home path oldLd, p.1 ≠ k := by
  intro p hp hk
  have hkey := amendedControlled_keys exe version home path oldLd p hp
  rw [hk] at hkey
  simp [h] at hkey

set_option maxHeartbeats 1600000 in
/-- Parent environment for the C7 counterexample. -/
def ceParentEnv : EnvMap :=
  [("HOME", "/home/user"), ("PATH", "/usr/bin"), ("ANSISMAINWINLITEMODE", "0")]

/-- C7 counterexample: `ANSISMAINWINLITEMODE` lies outside the controlled
set exactly as the claim words it (it is none of the named variables, none
of the named stems, and does not begin with "MW"), yet on this parent
environment — with `HOME` and `PATH` defined — the child environment built
by `cli_env` changes it from "0" to "1". The claim's frame condition
therefore fails at this input. -/
theorem cli_env_claim_counterexample :
    claimControlled "ANSISMAINWINLITEMODE" = false
    ∧ launchParentAfter
        (cli_env "posix" "/install/v232/aisol/ansys" 232 ["python"] ceParentEnv)
        = some ceParentEnv
    ∧ envGet ((launchChild
        (cli_env "posix" "/install/v232/aisol/ansys" 232 ["python"] ceParentEnv)).getD [])
        "ANSISMAINWINLITEMODE" = some "1"
    ∧ envGet ceParentEnv "ANSISMAINWINLITEMODE" = some "0" := by
  decide

/-- C7 (amended): on a non-Windows system with `HOME` and `PATH` defined in
the parent environment, `cli_env` launches with the parent `os.environ`
unchanged; the child environment is defined on every variable of the parent
environment; and every variable outside the controlled set — the claim's
set amended with `ANSISMAINWINLITEMODE` — keeps its parent value. -/
theorem cli_env_frame (osName exe : String) (version : Nat)
    (runArgs : List String) (environ : EnvMap) (k : String)
    (hos : osName ≠ "nt")
    (hhome : (envGet environ "HOME").isSome = true)
    (hpath : (envGet environ "PATH").isSome = true) :
    launchParentAfter (cli_env osName exe version runArgs environ) = some environ
    ∧ ((envGet environ k).isSome = true →
        (envGet ((launchChild (cli_env osName exe version runArgs environ)).getD [])
          k).isSome = true)
    ∧ (amendedControlled k = false →
        envGet ((launchChild (cli_env osName exe version runArgs environ)).getD []) k
          = envGet environ k) := by
  obtain ⟨home, hh⟩ := Option.isSome_iff_exists.mp hhome
  obtain ⟨path, hp⟩ := Option.isSome_iff_exists.mp hpath
  have hres : cli_env osName exe version runArgs environ =
      .launch environ
        (envSetMany environ (cliEnvPairs exe version home path
          ((envGet environ "LD_LIBRARY_PATH").getD "None")))
        runArgs := by
    rw [cli_env, if_neg hos, hh, hp]
  rw [hres]
  refine ⟨rfl, fun hs => ?_, fun hctl => ?_⟩ <;>
    simp only [launchChild, Option.getD_some]
  · exact envGet_envSetMany_isSome _ _ _ hs
  · exact envGet_envSetMany_notMem _ _ _
      (cliEnvPairs_keys_ne exe version home path _ k hctl)

/-- Witness for C7 at a concrete parent environment: an uncontrolled
variable keeps its parent value. -/
theorem cli_env_frame_witness :
    envGet ((launchChild (cli_env "posix" "/ansys_inc/v232/aisol" 232 ["make"]
        [("HOME", "/h"), ("PATH", "/bin"), ("FOO", "bar")])).getD []) "FOO"
      = envGet [("HOME", "/h"), ("PATH", "/bin"), ("FOO", "bar")] "FOO" :=
  (cli_env_frame "posix" "/ansys_inc/v232/aisol" 232 ["make"]
    [("HOME", "/h"), ("PATH", "/bin"), ("FOO", "bar")] "FOO"
    (by decide) (by decide) (by decide)).2.2 (by decide)

end PyMech.Run

namespace PyMech.Rpc

/-! The RPC core (Call Marshaller and RPC Dispatcher) is described by the
specification but its source is not in the checked tree; every definition in
this namespace is modelled from the spec, as its doc comment records. -/

mutual

/-- Modelled from the spec (§3, §4.1): native values on the hosted-application
side of the marshaller. The first eight constructors mirror the EncodedValue
grammar {null, boolean, integer, float, string, byte-sequence, ordered
sequence, string-keyed mapping}; `obj` is a live domain object, identified by
an object identity and a human-readable type label, that is not itself
representable and marshals as an opaque-handle-reference. A float is carried
by its IEEE-754 bit pattern: the marshaller passes the value through
untouched, so no floating-point arithmetic enters the model. Sequences and
mappings are mutual inductives so structural recursion stays elementary. -/
inductive NativeValue where
  | null
  | boolean (b : Bool)
  | integer (i : Int)
  | float (bits : Nat)
  | str (s : String)
  | bytes (bs : List Nat)
  | seq (items : NativeList)
  | mapping (entries : NativeMap)
  | obj (oid : Nat) (label : String)
deriving DecidableEq

/-- Ordered sequence of native values. -/
inductive NativeList where
  | nil
  | cons (v : NativeValue) (rest : NativeList)
deriving DecidableEq

/-- String-keyed mapping of native values. -/
inductive NativeMap where
  | nil
  | cons (key : String) (v : NativeValue) (rest : NativeMap)
deriving DecidableEq

end

mutual

/-- Modelled from the spec (§3): the wire form of any marshalled value — the
discriminated union over {null, boolean, integer, float, string,
byte-sequence, ordered sequence, string-keyed mapping,
opaque-handle-reference}. -/
inductive EncodedValue where
  | null
  | boolean (b : Bool)
  | integer (i : Int)
  | float (bits : Nat)
  | str (s : String)
  | bytes (bs : List Nat)
  | seq (items : EncodedList)
  | mapping (entries : EncodedMap)
  | handleRef (ident : Nat) (label : String)
deriving DecidableEq

/-- Ordered sequence of encoded values. -/
inductive EncodedList where
  | nil
  | cons (v : EncodedValue) (rest : EncodedList)
deriving DecidableEq

/-- String-keyed mapping of encoded values. -/
inductive EncodedMap where
  | nil
  | cons (key : String) (v : EncodedValue) (rest : EncodedMap)
deriving DecidableEq

end

/-- Modelled from the spec (§3, §4.1, §9): the Session's opaque-handle table,
an explicit arena from server-assigned identifiers to the live objects they
reference (object identity plus type label), together with the next fresh
identifier. -/
structure Session where
  table : List (Nat × (Nat × String))
  nextId : Nat
deriving DecidableEq

/-- Modelled from the spec (§4.1, §7): the marshalling failures — decoding
an opaque-handle-reference whose identifier is unknown to the Session, and
exceeding the encoder's recursion depth bound. -/
inductive MarshalError where
  | HandleNotFound
  | EncodingDepthExceeded
deriving DecidableEq

/-- Modelled from the spec (§4.1): the configurable top-level recursion
depth bound of the encoder, at its modest default of 32. -/
def DEPTH_BOUND : Nat := 32

mutual

/-- Nesting depth of a native value: primitives, byte sequences and opaque
objects sit at depth 0; each sequence or mapping layer adds one. -/
def valueDepth : NativeValue → Nat
  | .seq items => 1 + valueDepthList items
  | .mapping entries => 1 + valueDepthMap entries
  | _ => 0

/-- `valueDepth` over an ordered sequence: the deepest element. -/
def valueDepthList : NativeList → Nat
  | .nil => 0
  | .cons v rest => max (valueDepth v) (valueDepthList rest)

/-- `valueDepth` over a string-keyed mapping: the deepest entry. -/
def valueDepthMap : NativeMap → Nat
  | .nil => 0
  | .cons _ v rest => max (valueDepth v) (valueDepthMap rest)

end

mutual

/-- Modelled from the spec (§4.1): `encode(value)` under the recursion depth
budget. Primitives map directly and byte sequences pass through untouched;
ordered collections and string-keyed mappings recurse with one unit of the
budget consumed, and a collection met with the budget exhausted fails with
EncodingDepthExceeded rather than recursing unbounded; any other object is
wrapped as an opaque-handle-reference carrying a fresh server-assigned
identifier and the type label, recorded in the Session's table — hence the
updated Session in the result. -/
def encode : Nat → Session → NativeValue → Except MarshalError (EncodedValue × Session)
  | _, s, .null => .ok (.null, s)
  | _, s, .boolean b => .ok (.boolean b, s)
  | _, s, .integer i => .ok (.integer i, s)
  | _, s, .float bits => .ok (.float bits, s)
  | _, s, .str t => .ok (.str t, s)
  | _, s, .bytes bs => .ok (.bytes bs, s)
  | depth, s, .seq items =>
    match depth with
    | 0 => .error .EncodingDepthExceeded
    | depth2 + 1 =>
      match encodeList depth2 s items with
      | .error e => .error e
      | .ok (es, s2) => .ok (.seq es, s2)
  | depth, s, .mapping entries =>
    match depth with
    | 0 => .error .EncodingDepthExceeded
    | depth2 + 1 =>
      match encodeMap depth2 s entries with
      | .error e => .error e
      | .ok (es, s2) => .ok (.mapping es, s2)
  | _, s, .obj oid label =>
    .ok (.handleRef s.nextId label, ⟨(s.nextId, (oid, label)) :: s.table, s.nextId + 1⟩)

/-- `encode` over an ordered sequence, threading the Session; the elements
share the sequence's remaining budget. -/
def encodeList : Nat → Session → NativeList → Except MarshalError (EncodedList × Session)
  | _, s, .nil => .ok (.nil, s)
  | depth, s, .cons v rest =>
    match encode depth s v with
    | .error e => .error e
    | .ok (ev, s2) =>
      match encodeList depth s2 rest with
      | .error e => .error e
      | .ok (es, s3) => .ok (.cons ev es, s3)

/-- `encode` over a string-keyed mapping, threading the Session; the entries
share the mapping's remaining budget. -/
def encodeMap : Nat → Session → NativeMap → Except MarshalError (EncodedMap × Session)
  | _, s, .nil => .ok (.nil, s)
  | depth, s, .cons key v rest =>
    match encode depth s v with
    | .error e => .error e
    | .ok (ev, s2) =>
      match encodeMap depth s2 rest with
      | .error e => .error e
      | .ok (es, s3) => .ok (.cons key ev es, s3)

end

/-- Lookup of a handle identifier in a Session table. -/
def lookupHandle : List (Nat × (Nat × String)) → Nat → Option (Nat × String)
  | [], _ => none
  | (i, v) :: rest, j => if i = j then some v else lookupHandle rest j

mutual

/-- Modelled from the spec (§4.1): `decode(encoded, session)`, inverse of
`encode`. Decoding an opaque-handle-reference performs a table lookup in the
owning Session; an unknown identifier (a stale handle) fails with
HandleNotFound. -/
def decode : Session → EncodedValue → Except MarshalError NativeValue
  | _, .null => .ok .null
  | _, .boolean b => .ok (.boolean b)
  | _, .integer i => .ok (.integer i)
  | _, .float bits => .ok (.float bits)
  | _, .str t => .ok (.str t)
  | _, .bytes bs => .ok (.bytes bs)
  | s, .seq items =>
    match decodeList s items with
    | .ok vs => .ok (.seq vs)
    | .error e => .error e
  | s, .mapping entries =>
    match decodeMap s entries with
    | .ok m => .ok (.mapping m)
    | .error e => .error e
  | s, .handleRef ident _ =>
    match lookupHandle s.table ident with
    | some (oid, label) => .ok (.obj oid label)
    | none => .error .HandleNotFound

/-- `decode` over an ordered sequence. -/
def decodeList : Session → EncodedList → Except MarshalError NativeList
  | _, .nil => .ok .nil
  | s, .cons v rest =>
    match decode s v with
    | .error e => .error e
    | .ok v2 =>
      match decodeList s rest with
      | .error e => .error e
      | .ok rest2 => .ok (.cons v2 rest2)

/-- `decode` over a string-keyed mapping. -/
def decodeMap : Session → EncodedMap → Except MarshalError NativeMap
  | _, .nil => .ok .nil
  | s, .cons key v rest =>
    match decode s v with
    | .error e => .error e
    | .ok v2 =>
      match decodeMap s rest with
      | .error e => .error e
      | .ok rest2 => .ok (.cons key v2 rest2)

end

mutual

/-- Whether a native value lies in the primitive/collection/mapping grammar
of the claim, i.e. contains no live-object leaf. -/
def inGrammar : NativeValue → Bool
  | .seq items => inGrammarList items
  | .mapping entries => inGrammarMap entries
  | .obj _ _ => false
  | _ => true

/-- `inGrammar` over an ordered sequence. -/
def inGrammarList : NativeList → Bool
  | .nil => true
  | .cons v rest => inGrammar v && inGrammarList rest

/-- `inGrammar` over a string-keyed mapping. -/
def inGrammarMap : NativeMap → Bool
  | .nil => true
  | .cons _ v rest => inGrammar v && inGrammarMap rest

end

/-- The round-trip composite of the claim: encode at the default depth
bound, then decode within the same Session — the Session the encoder
returned. An encoding failure propagates as the marshalling error. -/
def roundTrip (s : Session) (v : NativeValue) : Except MarshalError NativeValue :=
  match encode DEPTH_BOUND s v with
  | .error e => .error e
  | .ok (ev, s2) => decode s2 ev

mutual

/-- Round trip on the grammar under the depth budget: a grammar value of
nesting depth within the budget encodes successfully, and its encoding
decodes back to the value in any Session (grammar encodings contain no
handle references, so decoding never consults the table). -/
theorem decode_encode_val : ∀ (depth : Nat) (s : Session) (v : NativeValue),
    inGrammar v = true → valueDepth v ≤ depth →
    ∃ ev s3, encode depth s v = .ok (ev, s3) ∧ ∀ s2, decode s2 ev = .ok v
  | _, s, .null, _, _ => ⟨.null, s, rfl, fun _ => rfl⟩
  | _, s, .boolean b, _, _ => ⟨.boolean b, s, rfl, fun _ => rfl⟩
  | _, s, .integer i, _, _ => ⟨.integer i, s, rfl, fun _ => rfl⟩
  | _, s, .float bits, _, _ => ⟨.float bits, s, rfl, fun _ => rfl⟩
  | _, s, .str t, _, _ => ⟨.str t, s, rfl, fun _ => rfl⟩
  | _, s, .bytes bs, _, _ => ⟨.bytes bs, s, rfl, fun _ => rfl⟩
  | depth, s, .seq items, h, hd => by
    have h1 : inGrammarList items = true := by simpa [inGrammar] using h
    simp only [valueDepth] at hd
    cases depth with
    | zero => exact absurd hd (by omega)
    | succ depth2 =>
      have hd1 : valueDepthList items ≤ depth2 := by omega
      obtain ⟨es, s3, he, hdec⟩ := decode_encode_list depth2 s items h1 hd1
      exact ⟨.seq es, s3, by simp [encode, he],
        fun s2 => by simp [decode, hdec s2]⟩
  | depth, s, .mapping entries, h, hd => by
    have h1 : inGrammarMap entries = true := by simpa [inGrammar] using h
    simp only [valueDepth] at hd
    cases depth with
    | zero => exact absurd hd (by omega)
    | succ depth2 =>
      have hd1 : valueDepthMap entries ≤ depth2 := by omega
      obtain ⟨es, s3, he, hdec⟩ := decode_encode_map depth2 s entries h1 hd1
      exact ⟨.mapping es, s3, by simp [encode, he],
        fun s2 => by simp [decode, hdec s2]⟩
  | _, _, .obj _ _, h, _ => by simp [inGrammar] at h

/-- Round trip over an ordered sequence of grammar values under the depth
budget. -/
theorem decode_encode_list : ∀ (depth : Nat) (s : Session) (items : NativeList),
    inGrammarList items = true → valueDepthList items ≤ depth →
    ∃ es s3, encodeList depth s items = .ok (es, s3) ∧ ∀ s2, decodeList s2 es = .ok items
  | _, s, .nil, _, _ => ⟨.nil, s, rfl, fun _ => rfl⟩
  | depth, s, .cons v rest, h, hd => by
    have hsplit := (Bool.and_eq_true _ _).mp (by simpa [inGrammarList] using h)
    simp only [valueDepthList, Nat.max_le] at hd
    obtain ⟨ev, s3, he1, hdec1⟩ := decode_encode_val depth s v hsplit.1 hd.1
    obtain ⟨es, s4, he2, hdec2⟩ := decode_encode_list depth s3 rest hsplit.2 hd.2
    exact ⟨.cons ev es, s4, by simp [encodeList, he1, he2],
      fun s2 => by simp [decodeList, hdec1 s2, hdec2 s2]⟩

/-- Round trip over a string-keyed mapping of grammar values under the depth
budget. -/
theorem decode_encode_map : ∀ (depth : Nat) (s : Session) (entries : NativeMap),
    inGrammarMap entries = true → valueDepthMap entries ≤ depth →
    ∃ es s3, encodeMap depth s entries = .ok (es, s3) ∧ ∀ s2, decodeMap s2 es = .ok entries
  | _, s, .nil, _, _ => ⟨.nil, s, rfl, fun _ => rfl⟩
  | depth, s, .cons key v rest, h, hd => by
    have hsplit := (Bool.and_eq_true _ _).mp (by simpa [inGrammarMap] using h)
    simp only [valueDepthMap, Nat.max_le] at hd
    obtain ⟨ev, s3, he1, hdec1⟩ := decode_encode_val depth s v hsplit.1 hd.1
    obtain ⟨es, s4, he2, hdec2⟩ := decode_encode_map depth s3 rest hsplit.2 hd.2
    exact ⟨.cons key ev es, s4, by simp [encodeMap, he1, he2],
      fun s2 => by simp [decodeMap, hdec1 s2, hdec2 s2]⟩

end

/-- A sequence nested to the given depth. -/
def nestedSeq : Nat → NativeValue
  | 0 => .null
  | n + 1 => .seq (.cons (nestedSeq n) .nil)

set_option maxRecDepth 8192 in
/-- C1 counterexample: the depth-33 grammar value exceeds the encoder's
default recursion depth bound of 32, so encoding fails with
EncodingDepthExceeded and the round trip of the claim returns that error
rather than the value — the unconditional round-trip claim fails at this
input. -/
theorem marshaller_round_trip_counterexample :
    inGrammar (nestedSeq 33) = true
    ∧ valueDepth (nestedSeq 33) = 33
    ∧ roundTrip ⟨[], 0⟩ (nestedSeq 33) = .error .EncodingDepthExceeded
    ∧ roundTrip ⟨[], 0⟩ (nestedSeq 33) ≠ .ok (nestedSeq 33) := by
  have h3 : roundTrip ⟨[], 0⟩ (nestedSeq 33) = .error .EncodingDepthExceeded := rfl
  refine ⟨by decide, by decide, h3, ?_⟩
  rw [h3]
  intro hcontra
  cases hcontra

/-- C1 (amended): for every value constructible from the
primitive/collection/mapping grammar whose nesting depth is within the
encoder's recursion depth bound, decoding the encoding within the same
Session gives back an equal value: `decode(encode(v)) == v`. -/
theorem marshaller_round_trip (s : Session) (v : NativeValue)
    (h : inGrammar v = true) (hdepth : valueDepth v ≤ DEPTH_BOUND) :
    roundTrip s v = .ok v := by
  obtain ⟨ev, s3, he, hdec⟩ := decode_encode_val DEPTH_BOUND s v h hdepth
  simp [roundTrip, he, hdec s3]

/-- A nested grammar value exercising every constructor family of the
grammar. -/
def grammarExample : NativeValue :=
  .seq (.cons (.integer 5)
    (.cons (.str "x")
      (.cons (.bytes [0, 255])
        (.cons (.mapping (.cons "k" (.boolean true)
                 (.cons "f" (.float 1072693248) .nil)))
          (.cons .null .nil)))))

/-- Witness for C1 at a concrete nested value within the depth bound and
the empty Session. -/
theorem marshaller_round_trip_witness :
    roundTrip ⟨[], 0⟩ grammarExample = .ok grammarExample :=
  marshaller_round_trip ⟨[], 0⟩ grammarExample (by decide) (by decide)

/-- Modelled from the spec (§4.2): Dispatcher lifecycle states. STOPPING is
transient inside `stop()`, which this model performs atomically. -/
inductive Phase where
  | CREATED
  | LISTENING
  | STOPPING
  | STOPPED
deriving DecidableEq

/-- Modelled from the spec (§9): the hosted application behind the
`resolve(path) -> capability{get, set, call}` interface — a tree of named
attributes whose leaves are marshallable values or callables. Non-value
capabilities carry the object identity and type label under which they
marshal as opaque handles. -/
inductive Capability where
  | val (v : NativeValue)
  | method (oid : Nat) (label : String)
      (f : NativeList → NativeMap → Except String NativeValue)
  | node (oid : Nat) (label : String) (children : List (String × Capability))

/-- Lookup of a named attribute among a node's children. -/
def childLookup : List (String × Capability) → String → Option Capability
  | [], _ => none
  | (name, c) :: rest, seg => if name = seg then some c else childLookup rest seg

/-- Modelled from the spec (§7): the error kinds this dispatcher model
produces in Responses. -/
inductive ErrKind where
  | AttributeNotFound
  | NotCallable
  | HandleNotFound
  | EncodingDepthExceeded
  | RemoteException
deriving DecidableEq

/-- Modelled from the spec (§7): marshalling errors are returned as
structured errors, not exceptions escaping to the transport layer. -/
def marshalErrKind : MarshalError → ErrKind
  | .HandleNotFound => .HandleNotFound
  | .EncodingDepthExceeded => .EncodingDepthExceeded

/-- Modelled from the spec (§4.2, §9): dotted-path resolution starting at
the Session root (the empty target is the root object itself); a missing
intermediate segment fails with AttributeNotFound. -/
def resolve : Capability → List String → Except ErrKind Capability
  | c, [] => .ok c
  | .node _ _ children, seg :: rest =>
    match childLookup children seg with
    | some c => resolve c rest
    | none => .error .AttributeNotFound
  | _, _ :: _ => .error .AttributeNotFound

/-- Replace-or-append of a named child, the effect of `setattr` on the
parent object. -/
def setChild (children : List (String × Capability)) (seg : String)
    (c : Capability) : List (String × Capability) :=
  match children with
  | [] => [(seg, c)]
  | (n, c0) :: rest =>
    if n = seg then (n, c) :: rest else (n, c0) :: setChild rest seg c

/-- Modelled from the spec (§4.2): SET_ATTR path traversal — resolve the
dotted path up to the parent (a missing intermediate segment fails with
AttributeNotFound, as does a non-node parent or an empty target) and set the
final attribute to the decoded value. -/
def setAtPath : Capability → List String → NativeValue → Except ErrKind Capability
  | _, [], _ => .error .AttributeNotFound
  | .node oid label children, [seg], v =>
    .ok (.node oid label (setChild children seg (.val v)))
  | .node oid label children, seg :: rest, v =>
    match childLookup children seg with
    | some child =>
      match setAtPath child rest v with
      | .ok c2 => .ok (.node oid label (setChild children seg c2))
      | .error e => .error e
    | none => .error .AttributeNotFound
  | _, _ :: _, _ => .error .AttributeNotFound

/-- Modelled from the spec (§3): a single RPC invocation, `kind` ∈ {CALL,
GET_ATTR, SET_ATTR, RUN_SCRIPT, PING} with the fields of §3. -/
inductive Request where
  | call (target : List String) (args : EncodedList) (kwargs : EncodedMap)
  | getAttr (target : List String)
  | setAttr (target : List String) (value : EncodedValue)
  | runScript (source : String) (inputs : EncodedMap)
  | ping

/-- Modelled from the spec (§3): `Response{status, value | error}` — OK with
an encoded result, or ERROR with an error kind, a human-readable message and
the remote stack summary. -/
inductive Response where
  | ok (value : EncodedValue)
  | error (kind : ErrKind) (message : String) (summary : String)
deriving DecidableEq

/-- Modelled from the spec (§3): the remote stack summary attached to a
RemoteException, derived from the failure message. -/
def summaryOf (msg : String) : String :=
  "remote traceback: " ++ msg

/-- Modelled from the spec (§3, §4.2): the Dispatcher owning the single
Session — lifecycle phase, marshalling session, root capability, and the
script engine executing RUN_SCRIPT bodies against the root namespace (an
external collaborator: script sources are opaque). -/
structure Dispatcher where
  phase : Phase
  session : Session
  root : Capability
  scriptEngine : String → EncodedMap → Except String NativeValue

/-- Modelled from the spec (§4.2): one request handled to completion by the
Dispatcher (the serve loop invokes this while LISTENING; request handling
never changes the phase). CALL resolves the dotted target (missing segment →
AttributeNotFound), rejects non-callables (NotCallable), decodes
args/kwargs (stale handle → HandleNotFound), invokes, and encodes the
return value; any failure raised by the invocation is caught and reported as
Response{ERROR, RemoteException, message, summary} — it never terminates the
Dispatcher. GET_ATTR encodes a value leaf directly and any other capability
as its opaque handle; SET_ATTR decodes its single value first, then sets;
RUN_SCRIPT reports engine failures exactly like CALL failures; PING replies
OK immediately. -/
def handle (d : Dispatcher) : Request → Response × Dispatcher
  | .ping => (.ok .null, d)
  | .call target args kwargs =>
    match resolve d.root target with
    | .error e =>
      (.error e ("cannot resolve: " ++ String.intercalate "." target) "", d)
    | .ok (.val _) =>
      (.error .NotCallable ("not callable: " ++ String.intercalate "." target) "", d)
    | .ok (.node _ _ _) =>
      (.error .NotCallable ("not callable: " ++ String.intercalate "." target) "", d)
    | .ok (.method _ _ f) =>
      match decodeList d.session args with
      | .error _ => (.error .HandleNotFound "stale handle in arguments" "", d)
      | .ok nargs =>
        match decodeMap d.session kwargs with
        | .error _ => (.error .HandleNotFound "stale handle in arguments" "", d)
        | .ok nkwargs =>
          match f nargs nkwargs with
          | .error msg => (.error .RemoteException msg (summaryOf msg), d)
          | .ok rv =>
            match encode DEPTH_BOUND d.session rv with
            | .error e => (.error (marshalErrKind e) "cannot encode result" "", d)
            | .ok (ev, s2) => (.ok ev, { d with session := s2 })
  | .getAttr target =>
    match resolve d.root target with
    | .error e =>
      (.error e ("cannot resolve: " ++ String.intercalate "." target) "", d)
    | .ok (.val v) =>
      match encode DEPTH_BOUND d.session v with
      | .error e => (.error (marshalErrKind e) "cannot encode result" "", d)
      | .ok (ev, s2) => (.ok ev, { d with session := s2 })
    | .ok (.method oid label _) =>
      match encode DEPTH_BOUND d.session (.obj oid label) with
      | .error e => (.error (marshalErrKind e) "cannot encode result" "", d)
      | .ok (ev, s2) => (.ok ev, { d with session := s2 })
    | .ok (.node oid label _) =>
      match encode DEPTH_BOUND d.session (.obj oid label) with
      | .error e => (.error (marshalErrKind e) "cannot encode result" "", d)
      | .ok (ev, s2) => (.ok ev, { d with session := s2 })
  | .setAttr target value =>
    match decode d.session value with
    | .error _ => (.error .HandleNotFound "stale handle in value" "", d)
    | .ok v =>
      match setAtPath d.root target v with
      | .error e =>
        (.error e ("cannot resolve: " ++ String.intercalate "." target) "", d)
      | .ok root2 => (.ok .null, { d with root := root2 })
  | .runScript source inputs =>
    match d.scriptEngine source inputs with
    | .error msg => (.error .RemoteException msg (summaryOf msg), d)
    | .ok rv =>
      match encode DEPTH_BOUND d.session rv with
      | .error e => (.error (marshalErrKind e) "cannot encode result" "", d)
      | .ok (ev, s2) => (.ok ev, { d with session := s2 })

/-- Modelled from the spec (§4.2): startup failure when the configured port
is already bound. -/
inductive StartError where
  | AddressInUse
deriving DecidableEq

/-- Modelled from the spec (§4.2): `start()` binds the listening endpoint at
the configured port and transitions to LISTENING; it fails with AddressInUse
when the port is already bound. -/
def start (boundPorts : List Nat) (port : Nat) (d : Dispatcher) :
    Except StartError Dispatcher :=
  if port ∈ boundPorts then .error .AddressInUse
  else .ok { d with phase := .LISTENING }

/-- Modelled from the spec (§4.2): `stop()` stops accepting connections,
drains in-flight requests, and transitions through STOPPING to STOPPED (the
transient STOPPING collapses at this model's granularity); calling it when
already STOPPED is a no-op. -/
def stop (d : Dispatcher) : Dispatcher :=
  match d.phase with
  | .STOPPED => d
  | _ => { d with phase := .STOPPED }

/-- C3: `stop()` is idempotent on the Dispatcher state machine: on a STOPPED
dispatcher it returns the dispatcher unchanged and raises no error (it is
total), and two successive `stop()` calls from any state agree and both end
in STOPPED. -/
theorem stop_idempotent (d : Dispatcher) :
    (d.phase = .STOPPED → stop d = d)
    ∧ (stop d).phase = .STOPPED
    ∧ stop (stop d) = stop d
    ∧ (stop (stop d)).phase = .STOPPED := by
  refine ⟨fun h => by simp [stop, h], ?_, ?_, ?_⟩ <;>
    cases hd : d.phase <;> simp [stop, hd]

/-- A concrete dispatcher in the STOPPED state. -/
def stoppedDispatcher : Dispatcher :=
  { phase := .STOPPED, session := ⟨[], 0⟩, root := .node 0 "root" [],
    scriptEngine := fun _ _ => .error "no script engine" }

/-- Witness for C3: `stop()` on a concrete STOPPED dispatcher is a no-op. -/
theorem stop_idempotent_witness : stop stoppedDispatcher = stoppedDispatcher :=
  (stop_idempotent stoppedDispatcher).1 rfl

/-- C2: a CALL whose resolved target raises an arbitrary failure during
invocation is answered with Response{ERROR, RemoteException} carrying the
message and its summary; the dispatcher is returned unchanged — in
particular a LISTENING server stays LISTENING — and a subsequent unrelated
request (here the PING readiness probe) on the same dispatcher is served
successfully. -/
theorem call_error_containment (d : Dispatcher) (target : List String)
    (args : EncodedList) (kwargs : EncodedMap) (oid : Nat) (label : String)
    (f : NativeList → NativeMap → Except String NativeValue)
    (nargs : NativeList) (nkwargs : NativeMap) (msg : String)
    (hphase : d.phase = .LISTENING)
    (hres : resolve d.root target = .ok (.method oid label f))
    (hargs : decodeList d.session args = .ok nargs)
    (hkwargs : decodeMap d.session kwargs = .ok nkwargs)
    (hinv : f nargs nkwargs = .error msg) :
    handle d (.call target args kwargs)
      = (.error .RemoteException msg (summaryOf msg), d)
    ∧ (handle d (.call target args kwargs)).2.phase = .LISTENING
    ∧ handle (handle d (.call target args kwargs)).2 .ping = (.ok .null, d) := by
  have h1 : handle d (.call target args kwargs)
      = (.error .RemoteException msg (summaryOf msg), d) := by
    simp [handle, hres, hargs, hkwargs, hinv]
  exact ⟨h1, by rw [h1]; exact hphase, by rw [h1]; rfl⟩

/-- A concrete root whose only method always raises. -/
def failingRoot : Capability :=
  .node 0 "root" [("Add", .method 1 "method" (fun _ _ => .error "type mismatch"))]

/-- A concrete LISTENING dispatcher over `failingRoot`. -/
def listeningDispatcher : Dispatcher :=
  { phase := .LISTENING, session := ⟨[], 0⟩, root := failingRoot,
    scriptEngine := fun _ _ => .error "no script engine" }

/-- Witness for C2: calling the always-raising method on the concrete
LISTENING dispatcher yields the RemoteException response with the
dispatcher unchanged. -/
theorem call_error_containment_witness :
    handle listeningDispatcher (.call ["Add"] .nil .nil)
      = (.error .RemoteException "type mismatch" (summaryOf "type mismatch"),
         listeningDispatcher) :=
  (call_error_containment listeningDispatcher ["Add"] .nil .nil 1 "method"
    (fun _ _ => .error "type mismatch") .nil .nil "type mismatch"
    rfl (by simp [listeningDispatcher, failingRoot, resolve, childLookup])
    rfl rfl rfl).1

end PyMech.Rpc
